import Mathlib

/-!
Verification of the forecast-template expansion and forecast-cycle validation
engine of the `stactools.noaa_hrrr` package, as implemented in
`src/stactools/noaa_hrrr/constants.py`.

The Python module is embedded shallowly:

* the two regular-expression searches of `Variable.from_template`
  (`re.search(r"(\d+) (.*) fcst", ...)` and
  `re.search(r"(\d+)-(\d+) (\w+) (.*)", ...)`) are embedded as executable
  scanning functions on `List Char`.  For these two concrete patterns the
  backtracking of `\d+` and `\w+` can never change a match (after a shorter
  run the next character is again a digit resp. a word character, never the
  required literal), so a maximal-munch matcher at each start position,
  trying positions left to right, is exactly `re.search`'s leftmost-match
  semantics; the greedy `(.*)` before a literal is the split at the last
  occurrence of that literal.  Template strings are ASCII and contain no
  newline, so `.`, `\d` and `\w` are taken as "any character", ASCII digit
  and ASCII word character.
* Python f-strings are embedded as string concatenation with `toString` on
  integers (identical rendering on the integer and string values involved).
* `raise ValueError(msg)` is embedded as `Except.error msg`.
* Python's `int` is `Int` (`%` on `Int` in Lean is Python's `%`: both are
  Euclidean for a positive modulus, and `/` is only used on exact multiples,
  where all division conventions agree with Python's `int(x / 24)`).
-/

deriving instance DecidableEq for Except

namespace HRRR

/-- Python regex `\w` on ASCII text: letter, digit or underscore. -/
def isWordChar (c : Char) : Bool := c.isAlphanum || c = '_'

/-- Python `int` on a (nonempty) string of ASCII digits. -/
def digitsToNat (ds : List Char) : Nat :=
  ds.foldl (fun a c => a * 10 + (c.toNat - 48)) 0

/-- Largest index `j` of `s` at which `pat` occurs (`pat` is a prefix of the
suffix of `s` starting at `j`): the split point chosen by a greedy `(.*)`
followed by the literal `pat`. -/
def lastOccurrence (pat : List Char) : List Char → Option Nat
  | [] => if pat.isEmpty then some 0 else none
  | c :: rest =>
    match lastOccurrence pat rest with
    | some j => some (j + 1)
    | none => if pat.isPrefixOf (c :: rest) then some 0 else none

/-- Attempt to match `(\d+) (.*) fcst` at the start of `s`: a maximal nonempty
digit run, a space, then a greedy `(.*)` followed by the literal `" fcst"`
(the last occurrence of `" fcst"` in the remainder).  Returns the two
captured groups. -/
def matchInstantAt (s : List Char) : Option (List Char × List Char) :=
  let ds := s.takeWhile Char.isDigit
  if ds.isEmpty then none
  else
    match s.drop ds.length with
    | ' ' :: rest =>
      match lastOccurrence [' ', 'f', 'c', 's', 't'] rest with
      | some j => some (ds, rest.take j)
      | none => none
    | _ => none

/-- Leftmost match of `(\d+) (.*) fcst` in `s` (Python `re.search`, first
regex of `Variable.from_template`). -/
def searchInstantAux : List Char → Option (List Char × List Char)
  | [] => none
  | c :: rest =>
    match matchInstantAt (c :: rest) with
    | some r => some r
    | none => searchInstantAux rest

/-- Python `re.search(r"(\d+) (.*) fcst", s)`, returning the captured groups
`(number, unit)`. -/
def searchInstant (s : String) : Option (List Char × List Char) :=
  searchInstantAux s.toList

/-- Attempt to match `(\d+)-(\d+) (\w+) (.*)` at the start of `s`: two maximal
nonempty digit runs joined by `-`, a space, a maximal nonempty word-character
run, a space, then `(.*)` captures the whole remainder (greedy with nothing
after it). -/
def matchIntervalAt (s : List Char) :
    Option (List Char × List Char × List Char × List Char) :=
  let d1 := s.takeWhile Char.isDigit
  if d1.isEmpty then none
  else
    match s.drop d1.length with
    | '-' :: r1 =>
      let d2 := r1.takeWhile Char.isDigit
      if d2.isEmpty then none
      else
        match r1.drop d2.length with
        | ' ' :: r2 =>
          let w := r2.takeWhile isWordChar
          if w.isEmpty then none
          else
            match r2.drop w.length with
            | ' ' :: r3 => some (d1, d2, w, r3)
            | _ => none
        | _ => none
    | _ => none

/-- Leftmost match of `(\d+)-(\d+) (\w+) (.*)` in `s` (second regex of
`Variable.from_template`). -/
def searchIntervalAux : List Char → Option (List Char × List Char × List Char × List Char)
  | [] => none
  | c :: rest =>
    match matchIntervalAt (c :: rest) with
    | some r => some r
    | none => searchIntervalAux rest

/-- Python `re.search(r"(\d+)-(\d+) (\w+) (.*)", s)`, returning the captured
groups `(start, end, unit, stat)`. -/
def searchInterval (s : String) : Option (List Char × List Char × List Char × List Char) :=
  searchIntervalAux s.toList

/-- Resolved layer descriptor (dataclass `Variable` of `constants.py`). -/
structure Variable where
  row_number : Int
  level_layer : String
  parameter : String
  forecast_valid : String
  description : String
deriving DecidableEq, Repr

/-- Core of `Variable.from_template`: the computation of the `forecast_valid`
string from the forecast hour and the `forecast_valid_template`, mirroring the
three-way pattern dispatch of `constants.py` lines 180-223.  The Python code
raises `ValueError` when no pattern matches; here that is `Except.error` with
the same message. -/
def from_template_forecast_valid (forecast_hour : Int)
    (forecast_valid_template : String) : Except String String :=
  if forecast_valid_template = "analysis" then
    Except.ok
      (if forecast_hour = 0 then "analysis"
       else toString forecast_hour ++ " hour fcst")
  else
    match searchInstant forecast_valid_template with
    | some (forecast_template_time, unitChars) =>
      let time_unit := String.mk unitChars
      -- "the reference data represents FH02"
      let forecast_time : Int :=
        if time_unit = "min" then
          (digitsToNat forecast_template_time : Int) + (forecast_hour - 1) * 60
        else forecast_hour
      Except.ok (toString forecast_time ++ " " ++ time_unit ++ " fcst")
    | none =>
      match searchInterval forecast_valid_template with
      | some (template_start_time, template_end_time, unitChars, statChars) =>
        let stat := String.mk statChars
        if String.mk unitChars = "min" then
          let start_time : Int :=
            (digitsToNat template_start_time : Int) + (forecast_hour - 2) * 60
          let end_time : Int :=
            (digitsToNat template_end_time : Int) + (forecast_hour - 2) * 60
          Except.ok (toString start_time ++ "-" ++ toString end_time ++ " " ++
            "min" ++ " " ++ stat)
        else
          -- time_unit = "hour"; then the whole-day override reassigns
          -- start_time, end_time and time_unit when forecast_hour % 24 == 0
          let hour_start : Int :=
            if String.mk template_start_time = "1" then forecast_hour - 1 else 0
          let day := forecast_hour % 24 = 0
          let start_time : Int := if day then 0 else hour_start
          let end_time : Int := if day then forecast_hour / 24 else forecast_hour
          let time_unit : String := if day then "day" else "hour"
          Except.ok (toString start_time ++ "-" ++ toString end_time ++ " " ++
            time_unit ++ " " ++ stat)
      | none =>
        Except.error
          (forecast_valid_template ++ " could not be parsed into a forecast_valid string")

/-- Full `Variable.from_template`: the non-template fields pass through
unchanged, the template is resolved by `from_template_forecast_valid`. -/
def Variable.from_template (forecast_hour : Int) (forecast_valid_template : String)
    (row_number : Int) (level_layer : String) (parameter : String)
    (description : String) : Except String Variable :=
  (from_template_forecast_valid forecast_hour forecast_valid_template).map
    fun forecast_valid =>
      { row_number := row_number
        level_layer := level_layer
        parameter := parameter
        forecast_valid := forecast_valid
        description := description }

/-- Enum `Product` of `constants.py` (values for the 'product' parameter). -/
inductive Product where
  | pressure | native | surface | sub_hourly
deriving DecidableEq, Repr

/-- String value of each `Product` member. -/
def Product.value : Product → String
  | .pressure => "prs"
  | .native => "nat"
  | .surface => "sfc"
  | .sub_hourly => "subh"

/-- Enum `ForecastHourSet` of `constants.py`. -/
inductive ForecastHourSet where
  | FH00 | FH01_18 | FH00_01 | FH02_48
deriving DecidableEq, Repr

/-- String value of each `ForecastHourSet` member. -/
def ForecastHourSet.value : ForecastHourSet → String
  | .FH00 => "fh00"
  | .FH01_18 => "fh01-18"
  | .FH00_01 => "fh00-01"
  | .FH02_48 => "fh02-48"

/-- Python `s.replace("fh", "")` on a character list: every (non-overlapping,
left-to-right) occurrence of `"fh"` is removed. -/
def stripFh : List Char → List Char
  | 'f' :: 'h' :: rest => stripFh rest
  | c :: rest => c :: stripFh rest
  | [] => []

/-- Python `s.split("-")` on a character list. -/
def splitDashAux (acc : List Char) : List Char → List (List Char)
  | [] => [acc.reverse]
  | '-' :: rest => acc.reverse :: splitDashAux [] rest
  | c :: rest => splitDashAux (c :: acc) rest

/-- Python `s.split("-")`. -/
def splitDash (s : List Char) : List (List Char) :=
  splitDashAux [] s

/-- `ForecastHourSet.generate_forecast_hours`: parse the enum's string value
(`[int(i) for i in self.value.replace("fh", "").split("-")]`) and yield either
the single hour or the inclusive range `range(lo, hi + 1)`.  The `_` case is
unreachable for the four enum values (the Python code asserts the length
is 2 there). -/
def ForecastHourSet.generate_forecast_hours (s : ForecastHourSet) : List Nat :=
  match (splitDash (stripFh s.value.toList)).map digitsToNat with
  | [a] => [a]
  | [a, b] => (List.range (b + 1 - a)).map (fun i => a + i)
  | _ => []

/-- `ForecastHourSet.from_forecast_hour_and_product` (`constants.py` lines
79-89): range-check the hour, then pick the partition by product. -/
def ForecastHourSet.from_forecast_hour_and_product (forecast_hour : Int)
    (product : Product) : Except String ForecastHourSet :=
  if ¬ (0 ≤ forecast_hour ∧ forecast_hour ≤ 48) then
    Except.error "integer must within 0-48"
  else if product = Product.sub_hourly then
    Except.ok (if forecast_hour = 0 then .FH00 else .FH01_18)
  else
    Except.ok (if forecast_hour < 2 then .FH00_01 else .FH02_48)

/-- Table `PRODUCT_FORECAST_HOUR_SETS` of `constants.py`. -/
def PRODUCT_FORECAST_HOUR_SETS : Product → List ForecastHourSet
  | .surface => [.FH00_01, .FH02_48]
  | .pressure => [.FH00_01, .FH02_48]
  | .native => [.FH00_01, .FH02_48]
  | .sub_hourly => [.FH00, .FH01_18]

/-- Constant `STANDARD_FORECAST_MAX_HOUR` of `constants.py`. -/
def STANDARD_FORECAST_MAX_HOUR : Int := 18

/-- Constant `EXTENDED_FORECAST_MAX_HOUR` of `constants.py`. -/
def EXTENDED_FORECAST_MAX_HOUR : Int := 48

/-- Dataclass `ForecastCycleType`: a cycle-type string.  The Python
`__post_init__` rejects anything outside standard/extended, embedded here as
the checked constructor `ForecastCycleType.make`. -/
structure ForecastCycleType where
  type : String
deriving DecidableEq, Repr

/-- Validation performed by `ForecastCycleType.__post_init__`. -/
def ForecastCycleType.make (t : String) : Except String ForecastCycleType :=
  if t ∉ ["standard", "extended"] then Except.error "Invalid forecast cycle type"
  else Except.ok ⟨t⟩

/-- The `max_forecast_hour` attribute set by `__post_init__`. -/
def ForecastCycleType.max_forecast_hour (c : ForecastCycleType) : Int :=
  if c.type = "standard" then STANDARD_FORECAST_MAX_HOUR
  else EXTENDED_FORECAST_MAX_HOUR

/-- `ForecastCycleType.from_timestamp`, which only reads the `.hour` of the
timestamp (an integer in `[0, 23]`): extended iff the run hour is a multiple
of 6. -/
def ForecastCycleType.from_timestamp (hour : Nat) : ForecastCycleType :=
  if hour % 6 = 0 then ⟨"extended"⟩ else ⟨"standard"⟩

/-- Error message raised by `ForecastCycleType.validate_forecast_hour`
(`str(self)` is the type string). -/
def ForecastCycleType.bound_error_message (c : ForecastCycleType)
    (forecast_hour : Int) : String :=
  "The provided forecast_hour (" ++ toString forecast_hour ++
    ") is not compatible with the forecast cycle type (" ++ c.type ++ ")"

/-- `ForecastCycleType.validate_forecast_hour`: valid iff
`0 <= forecast_hour <= self.max_forecast_hour`. -/
def ForecastCycleType.validate_forecast_hour (c : ForecastCycleType)
    (forecast_hour : Int) : Except String Unit :=
  if 0 ≤ forecast_hour ∧ forecast_hour ≤ c.max_forecast_hour then Except.ok ()
  else Except.error (c.bound_error_message forecast_hour)

/-- One record of the packaged inventory JSON files: the argument of
`Variable.from_template` apart from the forecast hour. -/
structure TemplateEntry where
  row_number : Int
  level_layer : String
  parameter : String
  forecast_valid_template : String
  description : String
deriving DecidableEq, Repr

/-- Expansion of one template entry at one forecast hour
(`Variable.from_template(forecast_hour=..., **template)`). -/
def expand_entry (forecast_hour : Int) (t : TemplateEntry) : Except String Variable :=
  Variable.from_template forecast_hour t.forecast_valid_template t.row_number
    t.level_layer t.parameter t.description

/-- `CycleRunConfig.__post_init__` (`constants.py` lines 258-277): for every
forecast hour of the set, expand every registered template entry, in order,
into the `inventory` mapping keyed by forecast hour.  The registry contents
(`TEMPLATE_INVENTORY`, loaded from packaged JSON data files that are not part
of the source tree) are passed in as the `templates` sequence; the Python dict
comprehension either completes for all hours or raises the first expansion
error, which `mapM` over `Except` reproduces. -/
def CycleRunConfig.inventory (templates : List TemplateEntry)
    (forecast_hour_set : ForecastHourSet) :
    Except String (List (Nat × List Variable)) :=
  forecast_hour_set.generate_forecast_hours.mapM fun forecast_hour =>
    (templates.mapM (expand_entry (Int.ofNat forecast_hour))).map
      fun vars => (forecast_hour, vars)

example : from_template_forecast_valid 0 "analysis" = Except.ok "analysis" := by decide
example : from_template_forecast_valid 7 "analysis" = Except.ok "7 hour fcst" := by decide
example : from_template_forecast_valid 5 "3 hour fcst" = Except.ok "5 hour fcst" := by decide
example : from_template_forecast_valid 2 "30 min fcst" = Except.ok "90 min fcst" := by decide
example : from_template_forecast_valid 3 "0-15 min acc" = Except.ok "60-75 min acc" := by decide
example : from_template_forecast_valid 5 "1-2 hour acc" = Except.ok "4-5 hour acc" := by decide
example : from_template_forecast_valid 24 "0-1 hour acc" = Except.ok "0-1 day acc" := by decide
example : ForecastHourSet.FH00.generate_forecast_hours = [0] := by decide
example : ForecastHourSet.FH00_01.generate_forecast_hours = [0, 1] := by decide
example : ForecastHourSet.FH01_18.generate_forecast_hours =
    [1, 2, 3, 4, 5, 6, 7, 8, 9, 10, 11, 12, 13, 14, 15, 16, 17, 18] := by decide
example : ForecastHourSet.FH02_48.generate_forecast_hours =
    (List.range 47).map (fun i => 2 + i) := rfl

/-- C1 counterexample: a single-instant template with the non-"min" unit
"sec" keeps that unit in the output at forecast hour 5 — the output is
"5 sec fcst", not the claimed "5 hour fcst". -/
theorem single_instant_unit_not_hour_cex :
    searchInstant "3 sec fcst" = some (['3'], ['s', 'e', 'c']) ∧
    from_template_forecast_valid 5 "3 sec fcst" = Except.ok "5 sec fcst" ∧
    ("5 sec fcst" : String) ≠ "5 hour fcst" := by decide

/-- C1 (amended): for every single-instant template (first pattern match,
groups `n` and `u`) whose unit is not "min", the template's number is
discarded and the output is "{forecast_hour} {unit} fcst" with the template's
unit carried through verbatim (so exactly "{forecast_hour} hour fcst" when
the unit is "hour"). -/
theorem single_instant_nonmin_uses_template_unit (fh : Int) (tpl : String)
    (n u : List Char) (hne : tpl ≠ "analysis")
    (hm : searchInstant tpl = some (n, u)) (hu : String.mk u ≠ "min") :
    from_template_forecast_valid fh tpl =
      Except.ok (toString fh ++ " " ++ String.mk u ++ " fcst") := by
  simp only [from_template_forecast_valid, if_neg hne, hm, if_neg hu]

/-- Witness for C1's amended theorem at the spec's own example: template
"3 hour fcst" and forecast hour 5 give "5 hour fcst". -/
theorem single_instant_nonmin_uses_template_unit_witness :
    from_template_forecast_valid 5 "3 hour fcst" = Except.ok "5 hour fcst" :=
  single_instant_nonmin_uses_template_unit 5 "3 hour fcst" ['3']
    ['h', 'o', 'u', 'r'] (by decide) (by decide) (by decide)

/-- C3 counterexample: "0-1 hour fcst" is an interval-shaped template with the
non-"min" unit "hour" (second pattern matches with stat "fcst"), yet at
forecast hour 5 the expander resolves it by the single-instant rule to
"5 hour fcst" instead of the claimed "0-5 hour fcst". -/
theorem interval_hour_shape_precedence_cex :
    searchInterval "0-1 hour fcst" =
      some (['0'], ['1'], ['h', 'o', 'u', 'r'], ['f', 'c', 's', 't']) ∧
    from_template_forecast_valid 5 "0-1 hour fcst" = Except.ok "5 hour fcst" ∧
    ("5 hour fcst" : String) ≠ "0-5 hour fcst" := by decide

/-- C3 (amended): for every interval template (second pattern, groups `n1`,
`n2`, `u`, `st`) with a non-"min" unit that the single-instant pattern does
not also match, the output is "{start}-{fh} hour {stat}" with start = fh − 1
if `n1` is the string "1" and 0 otherwise, overridden to
"0-{fh / 24} day {stat}" whenever fh is an exact multiple of 24. -/
theorem interval_hour_rule (fh : Int) (tpl : String) (n1 n2 u st : List Char)
    (hne : tpl ≠ "analysis") (h1 : searchInstant tpl = none)
    (h2 : searchInterval tpl = some (n1, n2, u, st))
    (hu : String.mk u ≠ "min") :
    (fh % 24 = 0 →
      from_template_forecast_valid fh tpl =
        Except.ok (toString (0 : Int) ++ "-" ++ toString (fh / 24) ++ " " ++
          "day" ++ " " ++ String.mk st)) ∧
    (fh % 24 ≠ 0 → String.mk n1 = "1" →
      from_template_forecast_valid fh tpl =
        Except.ok (toString (fh - 1) ++ "-" ++ toString fh ++ " " ++
          "hour" ++ " " ++ String.mk st)) ∧
    (fh % 24 ≠ 0 → String.mk n1 ≠ "1" →
      from_template_forecast_valid fh tpl =
        Except.ok (toString (0 : Int) ++ "-" ++ toString fh ++ " " ++
          "hour" ++ " " ++ String.mk st)) := by
  refine ⟨fun hday => ?_, fun hday hn1 => ?_, fun hday hn1 => ?_⟩
  · simp only [from_template_forecast_valid, if_neg hne, h1, h2, if_neg hu]
    simp [hday]
  · simp only [from_template_forecast_valid, if_neg hne, h1, h2, if_neg hu]
    simp [hday, hn1]
  · simp only [from_template_forecast_valid, if_neg hne, h1, h2, if_neg hu]
    simp [hday, hn1]

/-- Witness for C3's amended theorem at the spec's own example: template
"0-1 hour acc" at forecast hour 24 triggers the whole-day override and gives
"0-1 day acc". -/
theorem interval_hour_rule_witness :
    from_template_forecast_valid 24 "0-1 hour acc" = Except.ok "0-1 day acc" :=
  (interval_hour_rule 24 "0-1 hour acc" ['0'] ['1'] ['h', 'o', 'u', 'r']
    ['a', 'c', 'c'] (by decide) (by decide) (by decide) (by decide)).1 (by decide)

/-- C4 counterexample: "0-15 min fcst" has the interval shape with unit "min"
and stat "fcst", but at forecast hour 2 the claimed interval-rule output
"0-15 min fcst" (0 + (2−2)·60 and 15 + (2−2)·60) is not produced: the
single-instant pattern matches first and yields "75 min fcst". -/
theorem min_interval_shape_not_interval_rule_cex :
    searchInterval "0-15 min fcst" =
      some (['0'], ['1', '5'], ['m', 'i', 'n'], ['f', 'c', 's', 't']) ∧
    from_template_forecast_valid 2 "0-15 min fcst" = Except.ok "75 min fcst" ∧
    ("75 min fcst" : String) ≠ "0-15 min fcst" := by decide

/-- C4 (amended): minute-unit offsets are exact integer arithmetic — a
single-instant minute template "{n} min fcst" yields
"{n + (fh − 1)·60} min fcst", and an interval minute template
"{n1}-{n2} min {stat}" that the single-instant pattern does not also match
(as it does when stat is "fcst") yields
"{n1 + (fh − 2)·60}-{n2 + (fh − 2)·60} min {stat}". -/
theorem min_unit_template_offsets (fh : Int) (tpl : String)
    (hne : tpl ≠ "analysis") :
    (∀ n u, searchInstant tpl = some (n, u) → String.mk u = "min" →
      from_template_forecast_valid fh tpl =
        Except.ok (toString ((digitsToNat n : Int) + (fh - 1) * 60) ++ " " ++
          "min" ++ " fcst")) ∧
    (searchInstant tpl = none →
      ∀ n1 n2 u st, searchInterval tpl = some (n1, n2, u, st) →
        String.mk u = "min" →
        from_template_forecast_valid fh tpl =
          Except.ok (toString ((digitsToNat n1 : Int) + (fh - 2) * 60) ++ "-" ++
            toString ((digitsToNat n2 : Int) + (fh - 2) * 60) ++ " " ++
            "min" ++ " " ++ String.mk st)) := by
  constructor
  · intro n u hm hu
    simp only [from_template_forecast_valid, if_neg hne, hm, hu, if_pos]
  · intro h1 n1 n2 u st h2 hu
    simp only [from_template_forecast_valid, if_neg hne, h1, h2, hu, if_pos]

/-- Witness for C4's amended theorem at the spec's own example: template
"30 min fcst" at forecast hour 2 gives "90 min fcst". -/
theorem min_unit_template_offsets_witness :
    from_template_forecast_valid 2 "30 min fcst" = Except.ok "90 min fcst" :=
  (min_unit_template_offsets 2 "30 min fcst" (by decide)).1 ['3', '0']
    ['m', 'i', 'n'] (by decide) (by decide)

/-- C6: for every run start hour in `[0, 23]`, `from_timestamp` classifies the
run as "extended" exactly when the hour is a multiple of 6, and as "standard"
otherwise. -/
theorem from_timestamp_extended_iff (h : Nat) (hle : h ≤ 23) :
    ((ForecastCycleType.from_timestamp h).type = "extended" ↔ h % 6 = 0) ∧
    ((ForecastCycleType.from_timestamp h).type = "standard" ↔ ¬ h % 6 = 0) := by
  interval_cases h <;> decide

/-- Witness for C6 at run hour 12: an extended cycle. -/
theorem from_timestamp_extended_iff_witness :
    (ForecastCycleType.from_timestamp 12).type = "extended" :=
  ((from_timestamp_extended_iff 12 (by decide)).1).mpr (by decide)

/-- C7: `validate_forecast_hour` succeeds on a standard cycle type exactly for
forecast hours in `[0, 18]` and on an extended cycle type exactly for
`[0, 48]`; every other combination produces the cycle-bound error. -/
theorem validate_forecast_hour_bounds (fh : Int) :
    (ForecastCycleType.validate_forecast_hour ⟨"standard"⟩ fh = Except.ok () ↔
      0 ≤ fh ∧ fh ≤ 18) ∧
    (ForecastCycleType.validate_forecast_hour ⟨"extended"⟩ fh = Except.ok () ↔
      0 ≤ fh ∧ fh ≤ 48) ∧
    (¬ (0 ≤ fh ∧ fh ≤ 18) →
      ForecastCycleType.validate_forecast_hour ⟨"standard"⟩ fh =
        Except.error (ForecastCycleType.bound_error_message ⟨"standard"⟩ fh)) ∧
    (¬ (0 ≤ fh ∧ fh ≤ 48) →
      ForecastCycleType.validate_forecast_hour ⟨"extended"⟩ fh =
        Except.error (ForecastCycleType.bound_error_message ⟨"extended"⟩ fh)) := by
  refine ⟨?_, ?_, fun hc => ?_, fun hc => ?_⟩
  · by_cases hc : 0 ≤ fh ∧ fh ≤ 18 <;>
      simp [ForecastCycleType.validate_forecast_hour,
        ForecastCycleType.max_forecast_hour, STANDARD_FORECAST_MAX_HOUR, hc]
  · by_cases hc : 0 ≤ fh ∧ fh ≤ 48 <;>
      simp [ForecastCycleType.validate_forecast_hour,
        ForecastCycleType.max_forecast_hour, EXTENDED_FORECAST_MAX_HOUR, hc]
  · simp [ForecastCycleType.validate_forecast_hour,
      ForecastCycleType.max_forecast_hour, STANDARD_FORECAST_MAX_HOUR, hc]
  · simp [ForecastCycleType.validate_forecast_hour,
      ForecastCycleType.max_forecast_hour, EXTENDED_FORECAST_MAX_HOUR, hc]

/-- C8: `from_forecast_hour_and_product` produces the range error exactly when
the forecast hour lies outside `[0, 48]`, and for every hour inside the range
(and any product) it returns a forecast-hour set. -/
theorem from_forecast_hour_range_error_iff (fh : Int) (p : Product) :
    (ForecastHourSet.from_forecast_hour_and_product fh p =
        Except.error "integer must within 0-48" ↔ ¬ (0 ≤ fh ∧ fh ≤ 48)) ∧
    ((0 ≤ fh ∧ fh ≤ 48) →
      ∃ s, ForecastHourSet.from_forecast_hour_and_product fh p = Except.ok s) := by
  by_cases hc : 0 ≤ fh ∧ fh ≤ 48 <;>
    by_cases hp : p = Product.sub_hourly <;>
      simp [ForecastHourSet.from_forecast_hour_and_product, hc, hp]

/-- C9: a template string that is not the literal "analysis" and matches
neither the single-instant pattern nor the interval pattern makes
`from_template` fail, at every forecast hour, with the template-parse error
whose message starts with the offending template text; it is never passed
through or defaulted. -/
theorem unparsed_template_raises (fh : Int) (tpl : String)
    (hne : tpl ≠ "analysis") (h1 : searchInstant tpl = none)
    (h2 : searchInterval tpl = none) :
    from_template_forecast_valid fh tpl =
      Except.error (tpl ++ " could not be parsed into a forecast_valid string") := by
  simp only [from_template_forecast_valid, if_neg hne, h1, h2]

/-- Witness for C9 at the unrecognized template "garbage" and forecast
hour 3. -/
theorem unparsed_template_raises_witness :
    from_template_forecast_valid 3 "garbage" =
      Except.error "garbage could not be parsed into a forecast_valid string" :=
  unparsed_template_raises 3 "garbage" (by decide) (by decide) (by decide)

/-- C10: the interval-shaped minute template "0-15 min fcst" (interval pattern
groups 0, 15, "min", "fcst") is nonetheless resolved by the single-instant
rule, which matches first with groups 15 and "min" (the unanchored substring
"15 min fcst"), so every forecast hour fh yields
"{15 + (fh − 1)·60} min fcst", using only the interval's second number. -/
theorem min_interval_stat_fcst_first_match (fh : Int) :
    searchInterval "0-15 min fcst" =
      some (['0'], ['1', '5'], ['m', 'i', 'n'], ['f', 'c', 's', 't']) ∧
    searchInstant "0-15 min fcst" = some (['1', '5'], ['m', 'i', 'n']) ∧
    from_template_forecast_valid fh "0-15 min fcst" =
      Except.ok (toString ((15 : Int) + (fh - 1) * 60) ++ " " ++ "min" ++ " fcst") := by
  refine ⟨by decide, by decide, rfl⟩

/-- C2 counterexample: for the sub-hourly product, forecast hour 19 is
accepted and mapped to FH01-18, yet FH01-18's enumeration is 1..18, so hour
19 is in no set — the sets do not partition `[0, 48]` for sub-hourly. -/
theorem sub_hourly_partition_cex :
    ForecastHourSet.from_forecast_hour_and_product 19 Product.sub_hourly =
      Except.ok ForecastHourSet.FH01_18 ∧
    (19 : Nat) ∉ ForecastHourSet.FH01_18.generate_forecast_hours := by decide

/-- C2 (amended): for every product and hour `h` in `[0, 48]`,
`from_forecast_hour_and_product` selects exactly the described set
(sub-hourly: FH00 when h = 0, else FH01-18; other products: FH00-01 when
h < 2, else FH02-48); `h` is among the selected set's enumerated hours iff
the product is not sub-hourly or h ≤ 18 (so the sets partition `[0, 48]` for
the non-sub-hourly products but only `[0, 18]` for sub-hourly), and no other
set registered for the product enumerates `h`. -/
theorem forecast_hour_set_selection (p : Product) (h : Nat) (hle : h ≤ 48) :
    ForecastHourSet.from_forecast_hour_and_product (Int.ofNat h) p =
      Except.ok (if p = Product.sub_hourly
        then (if h = 0 then ForecastHourSet.FH00 else ForecastHourSet.FH01_18)
        else (if h < 2 then ForecastHourSet.FH00_01 else ForecastHourSet.FH02_48)) ∧
    (h ∈ (if p = Product.sub_hourly
        then (if h = 0 then ForecastHourSet.FH00 else ForecastHourSet.FH01_18)
        else (if h < 2 then ForecastHourSet.FH00_01 else
          ForecastHourSet.FH02_48)).generate_forecast_hours ↔
      (p = Product.sub_hourly → h ≤ 18)) ∧
    (∀ t ∈ PRODUCT_FORECAST_HOUR_SETS p, h ∈ t.generate_forecast_hours →
      t = (if p = Product.sub_hourly
        then (if h = 0 then ForecastHourSet.FH00 else ForecastHourSet.FH01_18)
        else (if h < 2 then ForecastHourSet.FH00_01 else
          ForecastHourSet.FH02_48))) := by
  cases p <;> interval_cases h <;> decide

/-- Witness for C2's amended theorem: hour 5 of the surface product selects
FH02-48. -/
theorem forecast_hour_set_selection_witness :
    ForecastHourSet.from_forecast_hour_and_product (Int.ofNat 5)
      Product.surface = Except.ok ForecastHourSet.FH02_48 :=
  (forecast_hour_set_selection Product.surface 5 (by decide)).1

/-- Helper: bind on `Except` after a success is application. -/
theorem except_ok_bind {ε α β : Type} (a : α) (f : α → Except ε β) :
    (Except.ok a >>= f : Except ε β) = f a := rfl

/-- Helper: bind on `Except` after a failure is that failure. -/
theorem except_error_bind {ε α β : Type} (e : ε) (f : α → Except ε β) :
    (Except.error e >>= f : Except ε β) = Except.error e := rfl

/-- Helper: a successful `mapM` over `Except` maps each element successfully,
preserving length and order. -/
theorem mapM_except_ok {ε α β : Type} (f : α → Except ε β) :
    ∀ (l : List α) (out : List β), l.mapM f = Except.ok out →
      out.length = l.length ∧
      ∀ i (hi : i < l.length) (ho : i < out.length),
        f (l.get ⟨i, hi⟩) = Except.ok (out.get ⟨i, ho⟩) := by
  intro l
  induction l with
  | nil =>
    intro out hmap
    rw [List.mapM_nil] at hmap
    cases hmap
    exact ⟨rfl, fun i hi _ => absurd hi (Nat.not_lt_zero i)⟩
  | cons a l ih =>
    intro out hmap
    rw [List.mapM_cons] at hmap
    cases hfa : f a with
    | error e =>
      simp only [hfa, except_error_bind] at hmap
      exact Except.noConfusion hmap
    | ok b =>
      simp only [hfa, except_ok_bind] at hmap
      cases hfl : l.mapM f with
      | error e =>
        simp only [hfl, except_error_bind] at hmap
        exact Except.noConfusion hmap
      | ok bs =>
        simp only [hfl, except_ok_bind] at hmap
        have hout : out = b :: bs := (Except.ok.inj hmap).symm
        subst hout
        obtain ⟨hlen, hpt⟩ := ih bs hfl
        refine ⟨by simp [hlen], ?_⟩
        intro i hi ho
        cases i with
        | zero => exact hfa
        | succ j =>
          have hi2 : j < l.length := by simp [List.length_cons] at hi; omega
          have ho2 : j < bs.length := by simp [List.length_cons] at ho; omega
          exact hpt j hi2 ho2

/-- Helper: a successful `Except.map` comes from a success of the mapped
computation. -/
theorem except_map_ok {ε α β : Type} (g : α → β) (x : Except ε α) (b : β)
    (hmap : x.map g = Except.ok b) : ∃ a, x = Except.ok a ∧ b = g a := by
  cases x with
  | error e => exact Except.noConfusion hmap
  | ok a => exact ⟨a, rfl, (Except.ok.inj hmap).symm⟩

/-- C5: when a CycleRunConfig inventory builds successfully from a registered
template sequence, its keys are exactly the hours the forecast-hour set
enumerates, in order, and for every hour the Variable sequence has the same
length as the template sequence with the i-th Variable the expansion of the
i-th template entry — expansion never reorders, drops, or duplicates
entries. -/
theorem cycle_run_inventory_order (templates : List TemplateEntry)
    (fhs : ForecastHourSet) (inv : List (Nat × List Variable))
    (hbuild : CycleRunConfig.inventory templates fhs = Except.ok inv) :
    inv.map Prod.fst = fhs.generate_forecast_hours ∧
    ∀ entry ∈ inv, entry.2.length = templates.length ∧
      ∀ i (hi : i < templates.length) (ho : i < entry.2.length),
        expand_entry (Int.ofNat entry.1) (templates.get ⟨i, hi⟩) =
          Except.ok (entry.2.get ⟨i, ho⟩) := by
  obtain ⟨hlen, hpt⟩ := mapM_except_ok _ _ _ hbuild
  have key : ∀ i (ho : i < inv.length) (hh : i < fhs.generate_forecast_hours.length),
      (inv.get ⟨i, ho⟩).1 = fhs.generate_forecast_hours.get ⟨i, hh⟩ ∧
      templates.mapM (expand_entry (Int.ofNat (inv.get ⟨i, ho⟩).1)) =
        Except.ok (inv.get ⟨i, ho⟩).2 := by
    intro i ho hh
    obtain ⟨vars, hvars, hentry⟩ := except_map_ok _ _ _ (hpt i hh ho)
    constructor
    · rw [hentry]
    · rw [hentry]
      exact hvars
  constructor
  · refine List.ext_get (by simpa using hlen) ?_
    intro i h1 h2
    have ho : i < inv.length := by simpa using h1
    simp only [List.get_eq_getElem, List.getElem_map]
    exact (key i ho h2).1
  · intro entry hmem
    obtain ⟨⟨i, ho⟩, rfl⟩ := List.mem_iff_get.mp hmem
    have hh : i < fhs.generate_forecast_hours.length := by omega
    obtain ⟨_, hvars⟩ := key i ho hh
    obtain ⟨hvlen, hvpt⟩ := mapM_except_ok _ _ _ hvars
    exact ⟨hvlen, hvpt⟩

/-- Witness for C5 at a concrete two-entry template sequence over the
FH00-01 set: keys are `[0, 1]` and each hour holds the two expanded entries
in template order. -/
theorem cycle_run_inventory_order_witness :
    ([((0 : Nat), [Variable.mk 1 "surface" "TMP" "analysis" "temperature",
        Variable.mk 2 "surface" "PRES" "0 hour fcst" "pressure"]),
      ((1 : Nat), [Variable.mk 1 "surface" "TMP" "1 hour fcst" "temperature",
        Variable.mk 2 "surface" "PRES" "1 hour fcst" "pressure"])].map Prod.fst =
      ForecastHourSet.FH00_01.generate_forecast_hours) ∧
    ∀ entry ∈ [((0 : Nat), [Variable.mk 1 "surface" "TMP" "analysis" "temperature",
        Variable.mk 2 "surface" "PRES" "0 hour fcst" "pressure"]),
      ((1 : Nat), [Variable.mk 1 "surface" "TMP" "1 hour fcst" "temperature",
        Variable.mk 2 "surface" "PRES" "1 hour fcst" "pressure"])],
      entry.2.length = [TemplateEntry.mk 1 "surface" "TMP" "analysis" "temperature",
        TemplateEntry.mk 2 "surface" "PRES" "3 hour fcst" "pressure"].length ∧
      ∀ i (hi : i < [TemplateEntry.mk 1 "surface" "TMP" "analysis" "temperature",
          TemplateEntry.mk 2 "surface" "PRES" "3 hour fcst" "pressure"].length)
        (ho : i < entry.2.length),
        expand_entry (Int.ofNat entry.1)
            ([TemplateEntry.mk 1 "surface" "TMP" "analysis" "temperature",
              TemplateEntry.mk 2 "surface" "PRES" "3 hour fcst" "pressure"].get ⟨i, hi⟩) =
          Except.ok (entry.2.get ⟨i, ho⟩) :=
  cycle_run_inventory_order
    [TemplateEntry.mk 1 "surface" "TMP" "analysis" "temperature",
      TemplateEntry.mk 2 "surface" "PRES" "3 hour fcst" "pressure"]
    ForecastHourSet.FH00_01
    [((0 : Nat), [Variable.mk 1 "surface" "TMP" "analysis" "temperature",
        Variable.mk 2 "surface" "PRES" "0 hour fcst" "pressure"]),
      ((1 : Nat), [Variable.mk 1 "surface" "TMP" "1 hour fcst" "temperature",
        Variable.mk 2 "surface" "PRES" "1 hour fcst" "pressure"])]
    (by decide)

end HRRR
